import Mathlib

/-!
Verification of the esp32 GPIO pin-multiplexing capability registry
(`esp32-hal/src/gpio.rs`).  The source file is a single `gpio!` macro
invocation declaring, per pin: a type name, an identifier, a numeric index,
an io-mux identifier, a direction capability (`IO` or `Input`), an RTC flag
(`RTC` or `0`), a register bank, and then two parenthesised lists of
alternate functions — the input-matrix signals first, the output-matrix
signals second, each a `SIGNAL: FunctionN` pair list.  The two leading
macro arguments, `Function2` and `DualCore`, are chip-wide: the default
GPIO multiplexer slot and the cpu-affinity model.

The pin table below is a direct transcription of that invocation.  The
operations over it (lookup, resolve/bind, the handle surface) are the
macro's expansion, which lives in the `esp-hal-common` crate outside the
material under study; they are modelled from the specification where noted.
-/

/-- The hardware multiplexer selector values (spec: `function_slot: enum
{Function0..Function5}`). -/
inductive FunctionSlot where
  | Function0
  | Function1
  | Function2
  | Function3
  | Function4
  | Function5
deriving DecidableEq, Fintype

/-- The register banks appearing in the source table (`Bank0`, `Bank1`). -/
inductive BankId where
  | Bank0
  | Bank1
deriving DecidableEq, Fintype

/-- Direction capability of a pin: the source writes `IO` for bidirectional
pins and `Input` for input-only pins. -/
inductive DirectionCapability where
  | InputOutput
  | InputOnly
deriving DecidableEq, Fintype

/-- Which signal matrix a function binding belongs to. -/
inductive Direction where
  | Input
  | Output
deriving DecidableEq, Fintype

/-- The cpu-affinity model tag; the source passes `DualCore` chip-wide. -/
inductive CpuAffinity where
  | SingleCore
  | DualCore
deriving DecidableEq, Fintype

/-- The error kinds of the registry (spec section 7). -/
inductive GpioError where
  | UnknownPin
  | UnsupportedBinding
  | InvalidMaskBits
deriving DecidableEq

/-- One per physical pin: index, identifier, direction capability, RTC
flag, bank, and the two alternate-function lists (input matrix first,
output matrix second), exactly as one row of the `gpio!` invocation. -/
structure PinRecord where
  index : Nat
  identifier : String
  dirCap : DirectionCapability
  rtcCapable : Bool
  bank : BankId
  inputSignals : List (String × FunctionSlot)
  outputSignals : List (String × FunctionSlot)
deriving DecidableEq

deriving instance DecidableEq for Except

/-- Chip-wide default multiplexer slot: the first `gpio!` argument. -/
def chipDefaultFunction : FunctionSlot := FunctionSlot.Function2

/-- Chip-wide cpu-affinity model: the second `gpio!` argument. -/
def chipCpuAffinity : CpuAffinity := CpuAffinity.DualCore

def gpio0 : PinRecord :=
  ⟨0, "gpio0", DirectionCapability.InputOutput, true, BankId.Bank0,
   [("EMAC_TX_CLK", FunctionSlot.Function5)],
   [("CLK_OUT1", FunctionSlot.Function1)]⟩

def gpio1 : PinRecord :=
  ⟨1, "gpio1", DirectionCapability.InputOutput, false, BankId.Bank0,
   [("EMAC_RXD2", FunctionSlot.Function5)],
   [("U0TXD", FunctionSlot.Function1), ("CLK_OUT3", FunctionSlot.Function1)]⟩

def gpio2 : PinRecord :=
  ⟨2, "gpio2", DirectionCapability.InputOutput, true, BankId.Bank0,
   [("HSPIWP", FunctionSlot.Function1), ("HS2_DATA0", FunctionSlot.Function3),
    ("SD_DATA0", FunctionSlot.Function4)],
   [("HS2_DATA0", FunctionSlot.Function3), ("SD_DATA0", FunctionSlot.Function4)]⟩

def gpio3 : PinRecord :=
  ⟨3, "gpio3", DirectionCapability.InputOutput, false, BankId.Bank0,
   [("U0RXD", FunctionSlot.Function0)],
   [("CLK_OUT2", FunctionSlot.Function1)]⟩

def gpio4 : PinRecord :=
  ⟨4, "gpio4", DirectionCapability.InputOutput, true, BankId.Bank0,
   [("HSPIHD", FunctionSlot.Function1), ("HS2_DATA1", FunctionSlot.Function3),
    ("SD_DATA1", FunctionSlot.Function4), ("EMAC_TX_ER", FunctionSlot.Function5)],
   [("HS2_DATA1", FunctionSlot.Function3), ("SD_DATA1", FunctionSlot.Function4)]⟩

def gpio5 : PinRecord :=
  ⟨5, "gpio5", DirectionCapability.InputOutput, false, BankId.Bank0,
   [("VSPICS0", FunctionSlot.Function1), ("HS1_DATA6", FunctionSlot.Function3),
    ("EMAC_RX_CLK", FunctionSlot.Function5)],
   [("HS1_DATA6", FunctionSlot.Function3)]⟩

def gpio6 : PinRecord :=
  ⟨6, "gpio6", DirectionCapability.InputOutput, false, BankId.Bank0,
   [("U1CTS", FunctionSlot.Function4)],
   [("SD_CLK", FunctionSlot.Function0), ("SPICLK", FunctionSlot.Function1),
    ("HS1_CLK", FunctionSlot.Function3)]⟩

def gpio7 : PinRecord :=
  ⟨7, "gpio7", DirectionCapability.InputOutput, false, BankId.Bank0,
   [("SD_DATA0", FunctionSlot.Function0), ("SPIQ", FunctionSlot.Function1),
    ("HS1_DATA0", FunctionSlot.Function3)],
   [("SD_DATA0", FunctionSlot.Function0), ("SPIQ", FunctionSlot.Function1),
    ("HS1_DATA0", FunctionSlot.Function3), ("U2RTS", FunctionSlot.Function4)]⟩

def gpio8 : PinRecord :=
  ⟨8, "gpio8", DirectionCapability.InputOutput, false, BankId.Bank0,
   [("SD_DATA1", FunctionSlot.Function0), ("SPID", FunctionSlot.Function1),
    ("HS1_DATA1", FunctionSlot.Function3), ("U2CTS", FunctionSlot.Function4)],
   [("SD_DATA1", FunctionSlot.Function0), ("SPID", FunctionSlot.Function1),
    ("HS1_DATA1", FunctionSlot.Function3)]⟩

def gpio9 : PinRecord :=
  ⟨9, "gpio9", DirectionCapability.InputOutput, false, BankId.Bank0,
   [("SD_DATA2", FunctionSlot.Function0), ("SPIHD", FunctionSlot.Function1),
    ("HS1_DATA2", FunctionSlot.Function3), ("U1RXD", FunctionSlot.Function4)],
   [("SD_DATA2", FunctionSlot.Function0), ("SPIHD", FunctionSlot.Function1),
    ("HS1_DATA2", FunctionSlot.Function3)]⟩

def gpio10 : PinRecord :=
  ⟨10, "gpio10", DirectionCapability.InputOutput, false, BankId.Bank0,
   [("SD_DATA3", FunctionSlot.Function0), ("SPIWP", FunctionSlot.Function1),
    ("HS1_DATA3", FunctionSlot.Function3)],
   [("SD_DATA3", FunctionSlot.Function0), ("SPIWP", FunctionSlot.Function1),
    ("HS1_DATA3", FunctionSlot.Function3), ("U1TXD", FunctionSlot.Function4)]⟩

def gpio11 : PinRecord :=
  ⟨11, "gpio11", DirectionCapability.InputOutput, false, BankId.Bank0,
   [("SPICS0", FunctionSlot.Function1)],
   [("SD_CMD", FunctionSlot.Function0), ("SPICS0", FunctionSlot.Function1),
    ("HS1_CMD", FunctionSlot.Function3), ("U1RTS", FunctionSlot.Function4)]⟩

def gpio12 : PinRecord :=
  ⟨12, "gpio12", DirectionCapability.InputOutput, true, BankId.Bank0,
   [("MTDI", FunctionSlot.Function0), ("HSPIQ", FunctionSlot.Function1),
    ("HS2_DATA2", FunctionSlot.Function3), ("SD_DATA2", FunctionSlot.Function4)],
   [("HSPIQ", FunctionSlot.Function1), ("HS2_DATA2", FunctionSlot.Function3),
    ("SD_DATA2", FunctionSlot.Function4), ("EMAC_TXD3", FunctionSlot.Function5)]⟩

def gpio13 : PinRecord :=
  ⟨13, "gpio13", DirectionCapability.InputOutput, true, BankId.Bank0,
   [("MTCK", FunctionSlot.Function0), ("HSPID", FunctionSlot.Function1),
    ("HS2_DATA3", FunctionSlot.Function3), ("SD_DATA3", FunctionSlot.Function4)],
   [("HSPID", FunctionSlot.Function1), ("HS2_DATA3", FunctionSlot.Function3),
    ("SD_DATA3", FunctionSlot.Function4), ("EMAC_RX_ER", FunctionSlot.Function5)]⟩

def gpio14 : PinRecord :=
  ⟨14, "gpio14", DirectionCapability.InputOutput, true, BankId.Bank0,
   [("MTMS", FunctionSlot.Function0), ("HSPICLK", FunctionSlot.Function1)],
   [("HSPICLK", FunctionSlot.Function1), ("HS2_CLK", FunctionSlot.Function3),
    ("SD_CLK", FunctionSlot.Function4), ("EMAC_TXD2", FunctionSlot.Function5)]⟩

def gpio15 : PinRecord :=
  ⟨15, "gpio15", DirectionCapability.InputOutput, true, BankId.Bank0,
   [("HSPICS0", FunctionSlot.Function1), ("EMAC_RXD3", FunctionSlot.Function5)],
   [("MTDO", FunctionSlot.Function0), ("HSPICS0", FunctionSlot.Function1),
    ("HS2_CMD", FunctionSlot.Function3), ("SD_CMD", FunctionSlot.Function4)]⟩

def gpio16 : PinRecord :=
  ⟨16, "gpio16", DirectionCapability.InputOutput, false, BankId.Bank0,
   [("HS1_DATA4", FunctionSlot.Function3), ("U2RXD", FunctionSlot.Function4)],
   [("HS1_DATA4", FunctionSlot.Function3), ("EMAC_CLK_OUT", FunctionSlot.Function5)]⟩

def gpio17 : PinRecord :=
  ⟨17, "gpio17", DirectionCapability.InputOutput, false, BankId.Bank0,
   [("HS1_DATA5", FunctionSlot.Function3)],
   [("HS1_DATA5", FunctionSlot.Function3), ("U2TXD", FunctionSlot.Function4),
    ("EMAC_CLK_180", FunctionSlot.Function5)]⟩

def gpio18 : PinRecord :=
  ⟨18, "gpio18", DirectionCapability.InputOutput, false, BankId.Bank0,
   [("VSPICLK", FunctionSlot.Function1), ("HS1_DATA7", FunctionSlot.Function3)],
   [("VSPICLK", FunctionSlot.Function1), ("HS1_DATA7", FunctionSlot.Function3)]⟩

def gpio19 : PinRecord :=
  ⟨19, "gpio19", DirectionCapability.InputOutput, false, BankId.Bank0,
   [("VSPIQ", FunctionSlot.Function1), ("U0CTS", FunctionSlot.Function3)],
   [("VSPIQ", FunctionSlot.Function1), ("EMAC_TXD0", FunctionSlot.Function5)]⟩

def gpio20 : PinRecord :=
  ⟨20, "gpio20", DirectionCapability.InputOutput, false, BankId.Bank0, [], []⟩

def gpio21 : PinRecord :=
  ⟨21, "gpio21", DirectionCapability.InputOutput, false, BankId.Bank0,
   [("VSPIHD", FunctionSlot.Function1)],
   [("VSPIHD", FunctionSlot.Function1), ("EMAC_TX_EN", FunctionSlot.Function5)]⟩

def gpio22 : PinRecord :=
  ⟨22, "gpio22", DirectionCapability.InputOutput, false, BankId.Bank0,
   [("VSPIWP", FunctionSlot.Function1)],
   [("VSPIWP", FunctionSlot.Function1), ("U0RTS", FunctionSlot.Function3),
    ("EMAC_TXD1", FunctionSlot.Function5)]⟩

def gpio23 : PinRecord :=
  ⟨23, "gpio23", DirectionCapability.InputOutput, false, BankId.Bank0,
   [("VSPID", FunctionSlot.Function1)],
   [("VSPID", FunctionSlot.Function1), ("HS1_STROBE", FunctionSlot.Function3)]⟩

def gpio24 : PinRecord :=
  ⟨24, "gpio24", DirectionCapability.InputOutput, false, BankId.Bank0, [], []⟩

def gpio25 : PinRecord :=
  ⟨25, "gpio25", DirectionCapability.InputOutput, false, BankId.Bank0,
   [("EMAC_RXD0", FunctionSlot.Function5)], []⟩

def gpio26 : PinRecord :=
  ⟨26, "gpio26", DirectionCapability.InputOutput, false, BankId.Bank0,
   [("EMAC_RXD1", FunctionSlot.Function5)], []⟩

def gpio27 : PinRecord :=
  ⟨27, "gpio27", DirectionCapability.InputOutput, false, BankId.Bank0,
   [("EMAC_RX_DV", FunctionSlot.Function5)], []⟩

def gpio32 : PinRecord :=
  ⟨32, "gpio32", DirectionCapability.InputOutput, false, BankId.Bank1, [], []⟩

def gpio33 : PinRecord :=
  ⟨33, "gpio33", DirectionCapability.InputOutput, false, BankId.Bank1, [], []⟩

def gpio34 : PinRecord :=
  ⟨34, "gpio34", DirectionCapability.InputOnly, false, BankId.Bank1, [], []⟩

def gpio35 : PinRecord :=
  ⟨35, "gpio35", DirectionCapability.InputOnly, false, BankId.Bank1, [], []⟩

def gpio36 : PinRecord :=
  ⟨36, "gpio36", DirectionCapability.InputOnly, false, BankId.Bank1, [], []⟩

def gpio37 : PinRecord :=
  ⟨37, "gpio37", DirectionCapability.InputOnly, false, BankId.Bank1, [], []⟩

def gpio38 : PinRecord :=
  ⟨38, "gpio38", DirectionCapability.InputOnly, false, BankId.Bank1, [], []⟩

def gpio39 : PinRecord :=
  ⟨39, "gpio39", DirectionCapability.InputOnly, false, BankId.Bank1, [], []⟩

/-- The full pin table, in source order. -/
def pins : List PinRecord :=
  [gpio0, gpio1, gpio2, gpio3, gpio4, gpio5, gpio6, gpio7, gpio8, gpio9,
   gpio10, gpio11, gpio12, gpio13, gpio14, gpio15, gpio16, gpio17, gpio18,
   gpio19, gpio20, gpio21, gpio22, gpio23, gpio24, gpio25, gpio26, gpio27,
   gpio32, gpio33, gpio34, gpio35, gpio36, gpio37, gpio38, gpio39]

/-- Bank capacity (spec section 3: `width: integer` — 32 in the studied
chip). -/
def bankWidth : Nat := 32

/-- The pins a bank owns, read from the table. -/
def bankPins (b : BankId) : List PinRecord :=
  pins.filter (fun p => p.bank == b)

/-- Modelled from the spec: `lookup(identifier_or_index) -> PinRecord`
(section 4.2) succeeds for a declared index and fails with `UnknownPin`
for an index not in the table.  The table scan replaces the per-pin type
dispatch of the `gpio!` macro expansion, which is not part of the
material under study. -/
def lookup (i : Nat) : Except GpioError PinRecord :=
  match pins.find? (fun p => p.index == i) with
  | some p => Except.ok p
  | none => Except.error GpioError.UnknownPin

/-- The alternate-function matrix of a pin in one direction: the first
parenthesised list of the source row is the input matrix, the second the
output matrix. -/
def matrix (p : PinRecord) : Direction → List (String × FunctionSlot)
  | Direction.Input => p.inputSignals
  | Direction.Output => p.outputSignals

/-- Modelled from the spec: `resolve(pin, direction, signal) ->
function_slot` (section 4.3) returns the declared slot for a triple
present in the matrix and fails with `UnsupportedBinding` otherwise. -/
def resolve (p : PinRecord) (d : Direction) (s : String) :
    Except GpioError FunctionSlot :=
  match (matrix p d).find? (fun e => e.1 == s) with
  | some e => Except.ok e.2
  | none => Except.error GpioError.UnsupportedBinding

/-- Modelled from the spec: `bind(signal, direction)` on a pin handle
internally calls `resolve` and surfaces its result (section 4.4). -/
def bindSignal (p : PinRecord) (d : Direction) (s : String) :
    Except GpioError FunctionSlot :=
  resolve p d s

/-- Modelled from the spec: `bind` reached through a pin index, composing
the capability-table lookup with the matrix resolution. -/
def bindIdx (i : Nat) (d : Direction) (s : String) :
    Except GpioError FunctionSlot :=
  match lookup i with
  | Except.ok p => bindSignal p d s
  | Except.error e => Except.error e

/-- The operations a generated pin handle may expose (spec section 4.4). -/
inductive HandleOp where
  | DigitalRead
  | DigitalWrite
  | DriveStrengthConfig
  | PullConfig
  | BindFunction
  | RtcAccessor
deriving DecidableEq

/-- Modelled from the spec: the Pin Handle Generator (section 4.4, the
`gpio!` macro expansion outside the material under study) exposes digital
read and `bind` on every pin, drive/write and drive-strength/pull
configuration only on `InputOutput` pins, and the RTC accessor only on
RTC-capable pins.  An operation absent from this list does not exist on
the handle at all. -/
def handleOps (p : PinRecord) : List HandleOp :=
  [HandleOp.DigitalRead, HandleOp.BindFunction] ++
  (if p.dirCap = DirectionCapability.InputOutput then
    [HandleOp.DigitalWrite, HandleOp.DriveStrengthConfig, HandleOp.PullConfig]
  else []) ++
  (if p.rtcCapable then [HandleOp.RtcAccessor] else [])

/-- Modelled from the spec: the per-pin default multiplexer slot is the
chip-wide first macro argument; no pin declares its own. -/
def pinDefaultFunction (_ : PinRecord) : FunctionSlot := chipDefaultFunction

/-- Modelled from the spec: the per-pin cpu-affinity tag is the chip-wide
second macro argument; no pin declares its own. -/
def pinCpuAffinity (_ : PinRecord) : CpuAffinity := chipCpuAffinity

/-! ### Helper lemmas about association-list search -/

/-- In a pair list whose keys are distinct, `find?` on a key returns
exactly the stored pair. -/
theorem find_eq_of_mem_of_nodupKeys :
    ∀ (l : List (String × FunctionSlot)), (l.map Prod.fst).Nodup →
    ∀ (s : String) (v : FunctionSlot), (s, v) ∈ l →
    l.find? (fun e => e.1 == s) = some (s, v) := by
  intro l
  induction l with
  | nil => intro _ s v hm; cases hm
  | cons a t ih =>
    intro hnd s v hm
    have hnd' : a.1 ∉ t.map Prod.fst ∧ (t.map Prod.fst).Nodup := by
      simpa [List.nodup_cons] using hnd
    rcases List.mem_cons.mp hm with h1 | h1
    · subst h1
      simp [List.find?]
    · have hne : (a.1 == s) = false := by
        apply beq_eq_false_iff_ne.mpr
        intro he
        exact hnd'.1 (he ▸ List.mem_map_of_mem Prod.fst h1)
      simp only [List.find?, hne]
      exact ih hnd'.2 s v h1

/-- `find?` on a key absent from a pair list returns `none`. -/
theorem find_eq_none_of_not_mem :
    ∀ (l : List (String × FunctionSlot)) (s : String),
    (∀ v, (s, v) ∉ l) → l.find? (fun e => e.1 == s) = none := by
  intro l s h
  apply List.find?_eq_none.mpr
  intro e he hb
  obtain ⟨e1, e2⟩ := e
  have : e1 = s := eq_of_beq hb
  subst this
  exact h e2 he

/-- Every pin's matrix has distinct signal names within each direction,
checked over the whole table. -/
theorem keys_nodup : ∀ p ∈ pins,
    (p.inputSignals.map Prod.fst).Nodup ∧
    (p.outputSignals.map Prod.fst).Nodup := by decide

/-! ### Claim theorems -/

/-- Claim C1: for every (pin, direction, signal) triple present in the
alternate-function matrix, `resolve` returns exactly the declared
`function_slot` and never a different one; for every triple not present,
it fails with `UnsupportedBinding`. -/
theorem resolve_exact_or_unsupported : ∀ p ∈ pins, ∀ (d : Direction) (s : String),
    (∀ slot, (s, slot) ∈ matrix p d → resolve p d s = Except.ok slot) ∧
    ((∀ slot, (s, slot) ∉ matrix p d) →
      resolve p d s = Except.error GpioError.UnsupportedBinding) := by
  intro p hp d s
  have hnd : ((matrix p d).map Prod.fst).Nodup := by
    cases d
    · exact (keys_nodup p hp).1
    · exact (keys_nodup p hp).2
  constructor
  · intro slot hmem
    unfold resolve
    rw [find_eq_of_mem_of_nodupKeys (matrix p d) hnd s slot hmem]
  · intro hnone
    unfold resolve
    rw [find_eq_none_of_not_mem (matrix p d) s hnone]

/-- Witness for C1 at pin 2: `HS2_DATA0` is declared in the output matrix
at `Function3` and resolves to it; `HSPIWP` is not in the output matrix
and is rejected. -/
theorem resolve_exact_or_unsupported_witness :
    resolve gpio2 Direction.Output "HS2_DATA0" = Except.ok FunctionSlot.Function3 ∧
    resolve gpio2 Direction.Output "HSPIWP" = Except.error GpioError.UnsupportedBinding :=
  ⟨(resolve_exact_or_unsupported gpio2 (by decide) Direction.Output "HS2_DATA0").1
      FunctionSlot.Function3 (by decide),
   (resolve_exact_or_unsupported gpio2 (by decide) Direction.Output "HSPIWP").2
      (by decide)⟩

/-- Claim C2: the `InputOnly` pins are exactly indices 34–39, and on such
pins the generated handle exposes no drive/write or output-configuration
operation at all — the operations are absent from the handle surface, not
present-but-failing. -/
theorem inputOnly_structural : ∀ p ∈ pins,
    (p.dirCap = DirectionCapability.InputOnly ↔
      p.index ∈ [34, 35, 36, 37, 38, 39]) ∧
    (p.dirCap = DirectionCapability.InputOnly →
      HandleOp.DigitalWrite ∉ handleOps p ∧
      HandleOp.DriveStrengthConfig ∉ handleOps p ∧
      HandleOp.PullConfig ∉ handleOps p) := by decide

/-- Witness for C2 at pin 34. -/
theorem inputOnly_structural_witness :
    HandleOp.DigitalWrite ∉ handleOps gpio34 ∧
    HandleOp.DriveStrengthConfig ∉ handleOps gpio34 ∧
    HandleOp.PullConfig ∉ handleOps gpio34 :=
  (inputOnly_structural gpio34 (by decide)).2 (by decide)

/-- Claim C3: the bank assignment is a true partition — every pin is in
exactly one bank, the two banks' pin lists concatenate back to the full
table, and indices 0–31 sit in `Bank0` while 32–39 sit in `Bank1`. -/
theorem bank_partition :
    (∀ p ∈ pins,
      ((p.bank = BankId.Bank0 ↔ p.index < 32) ∧
       (p.bank = BankId.Bank1 ↔ 32 ≤ p.index)) ∧
      ¬(p.bank = BankId.Bank0 ∧ p.bank = BankId.Bank1)) ∧
    bankPins BankId.Bank0 ++ bankPins BankId.Bank1 = pins := by decide

/-- Witness for C3 at pins 0 and 32. -/
theorem bank_partition_witness :
    (gpio0.bank = BankId.Bank0 ↔ gpio0.index < 32) ∧
    (gpio32.bank = BankId.Bank1 ↔ 32 ≤ gpio32.index) :=
  ⟨((bank_partition.1 gpio0 (by decide)).1).1,
   ((bank_partition.1 gpio32 (by decide)).1).2⟩

/-- Claim C4: `lookup` succeeds on every declared index and returns a
record with that very index; it fails with `UnknownPin` on every index
not in the table. -/
theorem lookup_roundtrip : ∀ i : Nat,
    ((∃ p ∈ pins, p.index = i) → ∃ r, lookup i = Except.ok r ∧ r.index = i) ∧
    ((∀ p ∈ pins, p.index ≠ i) → lookup i = Except.error GpioError.UnknownPin) := by
  intro i
  constructor
  · rintro ⟨p, hp, hi⟩
    rcases hfind : pins.find? (fun q => q.index == i) with _ | q
    · exfalso
      have := List.find?_eq_none.mp hfind p hp
      simp [hi] at this
    · have hq' := List.find?_some hfind
      have hq : q.index = i := by simpa using hq'
      refine ⟨q, ?_, hq⟩
      unfold lookup
      rw [hfind]
  · intro hall
    have hfind : pins.find? (fun q => q.index == i) = none := by
      apply List.find?_eq_none.mpr
      intro q hq
      simpa using hall q hq
    unfold lookup
    rw [hfind]

/-- Witness for C4: index 2 round-trips, index 99 is unknown. -/
theorem lookup_roundtrip_witness :
    (∃ r, lookup 2 = Except.ok r ∧ r.index = 2) ∧
    lookup 99 = Except.error GpioError.UnknownPin :=
  ⟨(lookup_roundtrip 2).1 ⟨gpio2, by decide, by decide⟩,
   (lookup_roundtrip 99).2 (by decide)⟩

/-- Claim C5: binding `HS2_DATA0` on pin 2 succeeds in both directions,
each resolved from its own matrix, returning `Function3` both times. -/
theorem pin2_hs2_data0_both_directions :
    bindIdx 2 Direction.Output "HS2_DATA0" = Except.ok FunctionSlot.Function3 ∧
    bindIdx 2 Direction.Input "HS2_DATA0" = Except.ok FunctionSlot.Function3 ∧
    ("HS2_DATA0", FunctionSlot.Function3) ∈ gpio2.outputSignals ∧
    ("HS2_DATA0", FunctionSlot.Function3) ∈ gpio2.inputSignals := by decide

/-- Claim C6: pin 20 declares no alternate functions, so every bind call
on it, whatever the direction and signal, fails with
`UnsupportedBinding`. -/
theorem pin20_no_bindings : ∀ (d : Direction) (s : String),
    bindIdx 20 d s = Except.error GpioError.UnsupportedBinding := by
  intro d s
  cases d <;> rfl

/-- Claim C7: the input and output matrices are independent and
non-symmetric — pins 25, 26 and 27 each resolve an input-direction signal
at `Function5` while the same signal is rejected in the output direction,
whose declared list is empty (empty list, not an error). -/
theorem asymmetric_matrices :
    (resolve gpio25 Direction.Input "EMAC_RXD0" = Except.ok FunctionSlot.Function5 ∧
     resolve gpio25 Direction.Output "EMAC_RXD0" =
       Except.error GpioError.UnsupportedBinding ∧
     gpio25.outputSignals = []) ∧
    (resolve gpio26 Direction.Input "EMAC_RXD1" = Except.ok FunctionSlot.Function5 ∧
     resolve gpio26 Direction.Output "EMAC_RXD1" =
       Except.error GpioError.UnsupportedBinding ∧
     gpio26.outputSignals = []) ∧
    (resolve gpio27 Direction.Input "EMAC_RX_DV" = Except.ok FunctionSlot.Function5 ∧
     resolve gpio27 Direction.Output "EMAC_RX_DV" =
       Except.error GpioError.UnsupportedBinding ∧
     gpio27.outputSignals = []) ∧
    gpio25 ∈ pins ∧ gpio26 ∈ pins ∧ gpio27 ∈ pins := by decide

/-- Claim C8: pin indices are globally unique, and within one pin and one
direction a signal name determines its function slot. -/
theorem table_uniqueness :
    (pins.map (fun p => p.index)).Nodup ∧
    ∀ p ∈ pins,
      (∀ e1 ∈ p.inputSignals, ∀ e2 ∈ p.inputSignals, e1.1 = e2.1 → e1.2 = e2.2) ∧
      (∀ e1 ∈ p.outputSignals, ∀ e2 ∈ p.outputSignals, e1.1 = e2.1 → e1.2 = e2.2) := by
  decide

/-- Witness for C8: the index list is duplicate-free, and the functional
dependence applied at a concrete entry of pin 2's input matrix. -/
theorem table_uniqueness_witness :
    (pins.map (fun p => p.index)).Nodup ∧
    FunctionSlot.Function3 = FunctionSlot.Function3 :=
  ⟨table_uniqueness.1,
   (table_uniqueness.2 gpio2 (by decide)).1
     ("HS2_DATA0", FunctionSlot.Function3) (by decide)
     ("HS2_DATA0", FunctionSlot.Function3) (by decide) rfl⟩

/-- Claim C9: indices 28–31 are absent from the table although they are
below the bank width of 32, and `lookup` rejects them with `UnknownPin`
exactly as it rejects an index beyond 39. -/
theorem missing_indices_28_to_31 :
    lookup 28 = Except.error GpioError.UnknownPin ∧
    lookup 29 = Except.error GpioError.UnknownPin ∧
    lookup 30 = Except.error GpioError.UnknownPin ∧
    lookup 31 = Except.error GpioError.UnknownPin ∧
    lookup 40 = Except.error GpioError.UnknownPin ∧
    28 < bankWidth ∧ 29 < bankWidth ∧ 30 < bankWidth ∧ 31 < bankWidth := by decide

/-- Claim C10: every pin shares the chip-wide default multiplexer slot
`Function2` and the chip-wide `DualCore` cpu-affinity tag; both come from
the two leading macro arguments, not from any per-pin declaration. -/
theorem chip_wide_defaults : ∀ p ∈ pins,
    pinDefaultFunction p = chipDefaultFunction ∧
    pinDefaultFunction p = FunctionSlot.Function2 ∧
    pinCpuAffinity p = chipCpuAffinity ∧
    pinCpuAffinity p = CpuAffinity.DualCore := by
  intro p _
  exact ⟨rfl, rfl, rfl, rfl⟩

/-- Witness for C10 at pin 0. -/
theorem chip_wide_defaults_witness :
    pinDefaultFunction gpio0 = FunctionSlot.Function2 ∧
    pinCpuAffinity gpio0 = CpuAffinity.DualCore :=
  ⟨(chip_wide_defaults gpio0 (by decide)).2.1,
   (chip_wide_defaults gpio0 (by decide)).2.2.2⟩
